import Mathlib

/-!
Verification of the market-lens client-side cache / retry / fallback subsystem.

The definitions below are a shallow embedding of the TypeScript sources:
  * `src/config/cache.ts` — the cache policy table,
  * `src/services/cache.ts` — the localStorage-backed generic cache service,
  * `src/utils/stock-quote-cache.ts` — success/failure memoization helpers,
  * `src/utils/stock-api-errors.ts` — the HTTP error classifier,
  * `src/utils/stock-swr-retry.ts` — the SWR retry handler,
  * `src/utils/stock-quote-transform.ts` / `stock-history-transform.ts` —
    response validation and transformation,
  * `fetchStockQuote` / `fetchHistoricalData` from
    `src/hooks/useStockQuote.ts` / `src/hooks/useStockHistory.ts`,
  * the fallback trigger from `src/components/chart/Chart.tsx`.

The browser's persistent key-value store (localStorage) is modelled as an
association list from string keys to stored values; `Date.now()` is an
explicit integer parameter `now`; a network request is modelled by passing
the `HttpResponse` the single `fetch` of each flow would resolve to, and
every fetch flow reports whether it reached that network call.
-/

namespace MarketLens

/-- The JSON values that can appear in an API response body.  Numbers are
modelled as integers: only the presence and runtime type of fields matter
to the validators and transforms, never numeric magnitude. -/
inductive JsonVal where
  | jnull : JsonVal
  | jbool : Bool → JsonVal
  | jnum : Int → JsonVal
  | jstr : String → JsonVal
  | jarr : List JsonVal → JsonVal
  | jobj : List (String × JsonVal) → JsonVal

/-- Property access `v[k]` on a JSON value: defined on objects, `none`
(JS `undefined`) on everything else (JSON arrays have no named fields). -/
def jGet (v : JsonVal) (k : String) : Option JsonVal :=
  match v with
  | .jobj fields => (fields.find? (fun f => f.1 = k)).map (·.2)
  | _ => none

/-- String-typed field access: `some s` iff the field is present and a string. -/
def jStrField (v : JsonVal) (k : String) : Option String :=
  match jGet v k with
  | some (.jstr s) => some s
  | _ => none

/-- Number-typed field access: `some n` iff the field is present and a number. -/
def jNumField (v : JsonVal) (k : String) : Option Int :=
  match jGet v k with
  | some (.jnum n) => some n
  | _ => none

/-- Is the optional field present with a string value? -/
def isJStr (v : Option JsonVal) : Bool :=
  match v with
  | some (.jstr _) => true
  | _ => false

/-- Is the optional field present with a numeric value? -/
def isJNum (v : Option JsonVal) : Bool :=
  match v with
  | some (.jnum _) => true
  | _ => false

/-- The quote record produced by the quote transform
(`StockQuote` in `stock-quote-transform.ts`). -/
structure StockQuote where
  symbol : String
  name : String
  price : Int
  changesPercentage : Int
  change : Int
  dayLow : Int
  dayHigh : Int
  yearHigh : Int
  yearLow : Int
  marketCap : Int
  priceAvg50 : Int
  priceAvg200 : Int
  volume : Int
  avgVolume : Int
  timestamp : Int
  deriving Repr, DecidableEq

/-- `StockQuoteData` from `stock-quote-transform.ts`.  In TypeScript the
`fallbackMode` field has literal type `true`; here it is a `Bool` field so
that the invariant "every produced value carries `true`" is provable. -/
structure StockQuoteData where
  quote : StockQuote
  symbol : String
  fallbackMode : Bool
  deriving Repr, DecidableEq

/-- One point of a historical series (`HistoricalPrice`). -/
structure HistoricalPrice where
  symbol : String
  date : String
  price : Int
  volume : Int
  deriving Repr, DecidableEq

/-- `StockHistoryData` from `stock-history-transform.ts`. -/
structure StockHistoryData where
  data : List HistoricalPrice
  symbol : String
  deriving Repr, DecidableEq

/-- The JSON-decoded `data` payload of a persisted cache envelope: either a
failure record `\x7b error, timestamp \x7d` written by `cacheFailure`, or the
success data written by `cacheSuccess` for the quote / history categories. -/
inductive CacheData where
  | failure : String → Int → CacheData
  | quoteData : StockQuoteData → CacheData
  | historyData : StockHistoryData → CacheData
  deriving Repr, DecidableEq

/-- A value held in localStorage: either a well-formed JSON cache envelope
`\x7b data, timestamp \x7d` (the only shape the cache service ever writes), or
`raw` text that does not parse as such an envelope (corruption, or an
unrelated application's entry). -/
inductive StoredVal where
  | env : CacheData → Int → StoredVal
  | raw : String → StoredVal
  deriving Repr, DecidableEq

/-- The persistent key-value store (localStorage), as an association list
with unique keys. -/
abbrev Store := List (String × StoredVal)

/-- `localStorage.getItem`. -/
def getItem : Store → String → Option StoredVal
  | [], _ => none
  | (k', v) :: rest, k => if k' = k then some v else getItem rest k

/-- `localStorage.removeItem`. -/
def removeItem : Store → String → Store
  | [], _ => []
  | (k', v) :: rest, k =>
      if k' = k then removeItem rest k else (k', v) :: removeItem rest k

/-- `localStorage.setItem`: replaces any existing entry for the key. -/
def setItem (s : Store) (k : String) (v : StoredVal) : Store :=
  (k, v) :: removeItem s k

/-- `Object.keys(localStorage)`. -/
def storeKeys (s : Store) : List String := s.map (·.1)

/-- JS `String.prototype.startsWith`, as a character-list prefix test. -/
def strStartsWith (s p : String) : Bool := p.data.isPrefixOf s.data

/-- JS `String.prototype.toLowerCase`, as a character-wise lowering (the
symbols in play are ASCII tickers). -/
def strToLower (s : String) : String := ⟨s.data.map Char.toLower⟩

/-- The cache categories of `cacheConfig.durations` in `src/config/cache.ts`. -/
inductive CacheCategory where
  | stockSearch
  | stockDetails
  | stockHistory1Hour
  | stockHistory1Day
  | stockHistory1Year
  | companyProfile
  deriving Repr, DecidableEq

/-- The literal key under which each category's entries are stored. -/
def categoryName : CacheCategory → String
  | .stockSearch => "stockSearch"
  | .stockDetails => "stockDetails"
  | .stockHistory1Hour => "stockHistory1Hour"
  | .stockHistory1Day => "stockHistory1Day"
  | .stockHistory1Year => "stockHistory1Year"
  | .companyProfile => "companyProfile"

/-- `cacheConfig.keyPrefix` — the localStorage namespace of the app. -/
def keyPrefixVal : String := "market-lens"

/-- `cacheConfig.durations` in milliseconds. -/
def cacheDuration : CacheCategory → Int
  | .stockSearch => 24 * 60 * 60 * 1000
  | .stockDetails => 4 * 60 * 60 * 1000
  | .stockHistory1Hour => 2 * 60 * 60 * 1000
  | .stockHistory1Day => 6 * 60 * 60 * 1000
  | .stockHistory1Year => 24 * 60 * 60 * 1000
  | .companyProfile => 7 * 24 * 60 * 60 * 1000

/-- `buildKey` from `src/services/cache.ts`. -/
def buildKey (t : CacheCategory) (identifier : String) : String :=
  keyPrefixVal ++ "-" ++ categoryName t ++ "-" ++ identifier

/-- `hasValidCache` from `src/services/cache.ts`.  Returns the boolean result
together with the store after the call (lazy eviction of an expired entry).
The `raw` case is the `catch` branch: unparsable stored text yields `false`
without eviction. -/
def hasValidCache (t : CacheCategory) (identifier : String) (s : Store)
    (now : Int) : Bool × Store :=
  let key := buildKey t identifier
  match getItem s key with
  | none => (false, s)
  | some (.raw _) => (false, s)
  | some (.env _ ts) =>
      if now - ts > cacheDuration t then (false, removeItem s key)
      else (true, s)

/-- `getCache` from `src/services/cache.ts`, with the same lazy eviction. -/
def getCache (t : CacheCategory) (identifier : String) (s : Store)
    (now : Int) : Option CacheData × Store :=
  let key := buildKey t identifier
  match getItem s key with
  | none => (none, s)
  | some (.raw _) => (none, s)
  | some (.env d ts) =>
      if now - ts > cacheDuration t then (none, removeItem s key)
      else (some d, s)

/-- `setCache` from `src/services/cache.ts`: writes a fresh envelope stamped
with the current clock, unconditionally overwriting any prior entry. -/
def setCache (t : CacheCategory) (identifier : String) (d : CacheData)
    (s : Store) (now : Int) : Store :=
  setItem s (buildKey t identifier) (.env d now)

/-- `clearCache` from `src/services/cache.ts`. -/
def clearCache (t : CacheCategory) (identifier : String) (s : Store) : Store :=
  removeItem s (buildKey t identifier)

/-- `clearAllCache` from `src/services/cache.ts`: iterates the snapshot of
`Object.keys(localStorage)` and removes every key under the app namespace. -/
def clearAllCache (s : Store) : Store :=
  (storeKeys s).foldl
    (fun acc key => if strStartsWith key keyPrefixVal then removeItem acc key else acc) s

/-- `hasCachedFailure` from `src/utils/stock-quote-cache.ts`. -/
def hasCachedFailure (category : CacheCategory) (symbol : String) (s : Store)
    (now : Int) : Bool × Store :=
  hasValidCache category ("failed-" ++ symbol) s now

/-- `cacheFailure` from `src/utils/stock-quote-cache.ts`: stores
`\x7b error, timestamp: Date.now() \x7d` under the derived `failed-<symbol>`
identifier of the same category. -/
def cacheFailure (category : CacheCategory) (symbol : String) (error : String)
    (s : Store) (now : Int) : Store :=
  setCache category ("failed-" ++ symbol) (.failure error now) s now

/-- `getCachedFailure` from `src/utils/stock-quote-cache.ts`. -/
def getCachedFailure (category : CacheCategory) (symbol : String) (s : Store)
    (now : Int) : Option CacheData × Store :=
  getCache category ("failed-" ++ symbol) s now

/-- `hasCachedSuccess` from `src/utils/stock-quote-cache.ts`. -/
def hasCachedSuccess (category : CacheCategory) (symbol : String) (s : Store)
    (now : Int) : Bool × Store :=
  hasValidCache category symbol s now

/-- `getCachedSuccess` from `src/utils/stock-quote-cache.ts`. -/
def getCachedSuccess (category : CacheCategory) (symbol : String) (s : Store)
    (now : Int) : Option CacheData × Store :=
  getCache category symbol s now

/-- `cacheSuccess` from `src/utils/stock-quote-cache.ts`. -/
def cacheSuccess (category : CacheCategory) (symbol : String) (d : CacheData)
    (s : Store) (now : Int) : Store :=
  setCache category symbol d s now

/-- The `ApiError` shape of `src/types/api.types.ts`: an `Error` extended
with `status` and `retryable`.  A plain `Error` (validation or configuration
failure) has name `"Error"` and leaves both optional fields `none`
(JS `undefined`). -/
structure ApiError where
  message : String
  name : String
  status? : Option Nat
  retryable? : Option Bool
  deriving Repr, DecidableEq

/-- A plain `new Error(message)` throw. -/
def plainError (message : String) : ApiError :=
  { message := message, name := "Error", status? := none, retryable? := none }

/-- `createApiError` from `src/utils/stock-api-errors.ts`. -/
def createApiError (message : String) (name : String) (status : Nat)
    (retryable : Bool) : ApiError :=
  { message := message, name := name, status? := some status,
    retryable? := some retryable }

/-- `createCachedFailureError` from `src/utils/stock-api-errors.ts`. -/
def createCachedFailureError (message : String) : ApiError :=
  createApiError message "CachedFailure" 0 false

/-- `isPermanentError` from `src/utils/stock-api-errors.ts`. -/
def isPermanentError (status : Nat) : Bool :=
  [401, 402, 403, 404].contains status

/-- `handleHttpError` from `src/utils/stock-api-errors.ts`.  The TypeScript
function throws; here it returns the thrown error together with the store
after its `cacheFailure` side effect.  `baseErrorMessage = none` models the
omitted optional argument (every caller in the repo omits it); an empty
string is falsy in JS and also falls back to the default template. -/
def handleHttpError (status : Nat) (statusText : String)
    (cacheCategory : CacheCategory) (symbol : String)
    (baseErrorMessage : Option String) (s : Store) (now : Int) :
    ApiError × Store :=
  let errorMessage :=
    match baseErrorMessage with
    | some m =>
        if m = "" then "API request failed: " ++ toString status ++ " " ++ statusText
        else m
    | none => "API request failed: " ++ toString status ++ " " ++ statusText
  if status = 402 then
    let errorMsg := errorMessage ++ " - API usage limit reached"
    (createApiError errorMsg "PaymentRequiredError" 402 false,
     cacheFailure cacheCategory symbol errorMsg s now)
  else if status = 403 then
    let errorMsg := errorMessage ++ " - Check your API key permissions"
    (createApiError errorMsg "ForbiddenError" 403 false,
     cacheFailure cacheCategory symbol errorMsg s now)
  else if status = 401 then
    let errorMsg := errorMessage ++ " - Invalid API key"
    (createApiError errorMsg "UnauthorizedError" 401 false,
     cacheFailure cacheCategory symbol errorMsg s now)
  else if status = 404 then
    let errorMsg := errorMessage ++ " - Stock symbol not found"
    (createApiError errorMsg "NotFoundError" 404 false,
     cacheFailure cacheCategory symbol errorMsg s now)
  else if 500 ≤ status then
    (createApiError (errorMessage ++ " - Server error, will retry") "ServerError"
      status true, s)
  else
    (createApiError errorMessage "ClientError" status false, s)

/-- JS truthiness of the optional numeric `status` field (`error.status &&`):
`undefined` and `0` are falsy. -/
def statusTruthy : Option Nat → Bool
  | some n => n != 0
  | none => false

/-- `shouldRetryError` from `src/utils/stock-api-errors.ts`.  The first test
is the strict comparison `error.retryable === false`. -/
def shouldRetryError (error : ApiError) : Bool :=
  if error.retryable? = some false then false
  else if statusTruthy error.status? && isPermanentError (error.status?.getD 0) then
    false
  else true

/-- JS `Set.add`: no-op when the element is already present. -/
def setAdd (l : List String) (a : String) : List String :=
  if l.contains a then l else a :: l

/-- The observable effect of one invocation of the `onErrorRetry` handler
built by `createStockRetryConfig`: the permanently-failed set afterwards,
and whether a delayed `revalidate` was scheduled. -/
structure RetryEffect where
  failedSet : List String
  scheduledRetry : Bool
  deriving Repr, DecidableEq

/-- `createStockRetryConfig` from `src/utils/stock-swr-retry.ts`, applied to
one error.  `maxRetries` defaults to 2 at the call sites; the
`serverErrorDelay` argument only sizes the timeout and is not modelled. -/
def createStockRetryConfig (symbol : String)
    (permanentlyFailedStocks : List String) (maxRetries : Nat)
    (error : ApiError) (retryCount : Nat) : RetryEffect :=
  if shouldRetryError error = false then
    { failedSet := setAdd permanentlyFailedStocks (strToLower symbol),
      scheduledRetry := false }
  else if statusTruthy error.status? && isPermanentError (error.status?.getD 0) then
    { failedSet := setAdd permanentlyFailedStocks (strToLower symbol),
      scheduledRetry := false }
  else if maxRetries ≤ retryCount then
    { failedSet := permanentlyFailedStocks, scheduledRetry := false }
  else if statusTruthy error.status? && 500 ≤ error.status?.getD 0 then
    { failedSet := permanentlyFailedStocks, scheduledRetry := true }
  else
    { failedSet := permanentlyFailedStocks, scheduledRetry := false }

/-- The `shouldFetch` guard shared by `useStockQuote` and `useStockHistory`:
`Boolean(symbol && symbol.length > 0 && !permanentlyFailedStocks.has(symbol.toLowerCase()))`.
The first two conjuncts are both the non-emptiness of the symbol. -/
def shouldFetch (symbol : String) (permanentlyFailedStocks : List String) :
    Bool :=
  if symbol = "" then false
  else !(permanentlyFailedStocks.contains (strToLower symbol))

/-- The fallback trigger in `StockChart` (`src/components/chart/Chart.tsx`):
`historyError?.status === 402`. -/
def shouldUseFallback (historyError : Option ApiError) : Bool :=
  match historyError with
  | some e => e.status? == some 402
  | none => false

/-- `isApiErrorResponse` from `stock-quote-transform.ts`: the payload is an
object carrying `Error.Message` as a string or an `"Error Message"` string
field.  Arrays and primitives have no such named fields and fail the test,
matching the JS `typeof`/property checks. -/
def isApiErrorResponse (data : JsonVal) : Bool :=
  match data with
  | .jobj _ =>
      (match jGet data "Error" with
       | some e => isJStr (jGet e "Message")
       | none => false)
      || isJStr (jGet data "Error Message")
  | _ => false

/-- `isQuoteResponseArray` from `stock-quote-transform.ts`: a non-empty array
whose FIRST element is an object with a string `symbol` and the twelve
required numeric quote fields.  Elements after the first are not inspected. -/
def isQuoteResponseArray (data : JsonVal) : Bool :=
  match data with
  | .jarr (firstItem :: _) =>
      match firstItem with
      | .jobj _ =>
          isJStr (jGet firstItem "symbol") &&
          isJNum (jGet firstItem "price") &&
          isJNum (jGet firstItem "changesPercentage") &&
          isJNum (jGet firstItem "change") &&
          isJNum (jGet firstItem "dayLow") &&
          isJNum (jGet firstItem "dayHigh") &&
          isJNum (jGet firstItem "yearHigh") &&
          isJNum (jGet firstItem "yearLow") &&
          isJNum (jGet firstItem "marketCap") &&
          isJNum (jGet firstItem "priceAvg50") &&
          isJNum (jGet firstItem "priceAvg200") &&
          isJNum (jGet firstItem "volume") &&
          isJNum (jGet firstItem "avgVolume")
      | _ => false
  | _ => false

/-- `validateApiResponse` from `stock-quote-transform.ts`.  The function
throws on failure; this model returns `some message` for a throw and `none`
when validation passes.  The embedded-envelope branches test the message for
JS truthiness, so an empty message string falls through; a truthy non-string
`Error.Message` (never produced by the API) is not modelled as throwable. -/
def validateApiResponse (data : JsonVal) : Option String :=
  let envelopeFirst : Option String :=
    if isApiErrorResponse data then
      match (jGet data "Error").bind (fun e => jStrField e "Message") with
      | some m => if m = "" then none else some m
      | none => none
    else none
  match envelopeFirst with
  | some m => some m
  | none =>
    let envelopeSecond : Option String :=
      if isApiErrorResponse data then
        match jStrField data "Error Message" with
        | some m => if m = "" then none else some m
        | none => none
      else none
    match envelopeSecond with
    | some m => some m
    | none =>
        if isQuoteResponseArray data then none
        else some "No quote data found in API response"

/-- Numeric field extraction for the transform; the default is unreachable
for the validated required fields. -/
def jNumD (v : JsonVal) (k : String) : Int := (jNumField v k).getD 0

/-- String field extraction for the transform; the default is unreachable
for the validated `symbol` field. -/
def jStrD (v : JsonVal) (k : String) : String := (jStrField v k).getD ""

/-- `quoteData.name || symbol`: a `name` that is absent or falsy (the empty
string) falls back to the requested symbol. -/
def quoteNameField (quoteData : JsonVal) (symbol : String) : String :=
  match jStrField quoteData "name" with
  | some s => if s = "" then symbol else s
  | none => symbol

/-- `quoteData.timestamp || Date.now()`: a `timestamp` that is absent or
falsy (zero) falls back to the current clock. -/
def quoteTimestampField (quoteData : JsonVal) (now : Int) : Int :=
  match jNumField quoteData "timestamp" with
  | some t => if t = 0 then now else t
  | none => now

/-- `transformQuoteResponse` from `stock-quote-transform.ts`.  `now` is the
`Date.now()` the timestamp default reads. -/
def transformQuoteResponse (data : JsonVal) (symbol : String) (now : Int) :
    Except ApiError StockQuoteData :=
  match validateApiResponse data with
  | some msg => .error (plainError msg)
  | none =>
    match data with
    | .jarr (quoteData :: _) =>
        .ok
          { quote :=
              { symbol := jStrD quoteData "symbol"
                name := quoteNameField quoteData symbol
                price := jNumD quoteData "price"
                changesPercentage := jNumD quoteData "changesPercentage"
                change := jNumD quoteData "change"
                dayLow := jNumD quoteData "dayLow"
                dayHigh := jNumD quoteData "dayHigh"
                yearHigh := jNumD quoteData "yearHigh"
                yearLow := jNumD quoteData "yearLow"
                marketCap := jNumD quoteData "marketCap"
                priceAvg50 := jNumD quoteData "priceAvg50"
                priceAvg200 := jNumD quoteData "priceAvg200"
                volume := jNumD quoteData "volume"
                avgVolume := jNumD quoteData "avgVolume"
                timestamp := quoteTimestampField quoteData now }
            symbol := symbol
            fallbackMode := true }
    | _ =>
        -- unreachable: a passing validation implies a non-empty array
        .error (plainError "No quote data found in API response")

/-- `isHistoricalResponseArray` from `stock-history-transform.ts`: any array
is valid when empty; otherwise only the first element's `symbol`, `date` and
`price` are checked (`volume` is optional). -/
def isHistoricalResponseArray (data : JsonVal) : Bool :=
  match data with
  | .jarr [] => true
  | .jarr (firstItem :: _) =>
      match firstItem with
      | .jobj _ =>
          isJStr (jGet firstItem "symbol") &&
          isJStr (jGet firstItem "date") &&
          isJNum (jGet firstItem "price")
      | _ => false
  | _ => false

/-- `validateHistoricalResponse` from `stock-history-transform.ts`, with the
same throw-as-`some` convention as `validateApiResponse`. -/
def validateHistoricalResponse (data : JsonVal) : Option String :=
  let envelopeFirst : Option String :=
    if isApiErrorResponse data then
      match (jGet data "Error").bind (fun e => jStrField e "Message") with
      | some m => if m = "" then none else some m
      | none => none
    else none
  match envelopeFirst with
  | some m => some m
  | none =>
    let envelopeSecond : Option String :=
      if isApiErrorResponse data then
        match jStrField data "Error Message" with
        | some m => if m = "" then none else some m
        | none => none
      else none
    match envelopeSecond with
    | some m => some m
    | none =>
        if isHistoricalResponseArray data then none
        else some "No historical data found in API response"

/-- The per-item mapping of `transformHistoricalResponse`:
`\x7b symbol, date, price, volume: item.volume || 0 \x7d`. -/
def historicalItem (item : JsonVal) : HistoricalPrice :=
  { symbol := jStrD item "symbol"
    date := jStrD item "date"
    price := jNumD item "price"
    volume := jNumD item "volume" }

/-- `transformHistoricalResponse` from `stock-history-transform.ts`. -/
def transformHistoricalResponse (data : JsonVal) (symbol : String) :
    Except ApiError StockHistoryData :=
  match validateHistoricalResponse data with
  | some msg => .error (plainError msg)
  | none =>
    match data with
    | .jarr items =>
        .ok { data := items.map historicalItem, symbol := symbol }
    | _ =>
        -- unreachable: a passing validation implies an array
        .error (plainError "No historical data found in API response")

/-- The `failureData.error` property read by the fetch flows.  The stored
data is a failure record in every modelled write; reading `.error` off a
foreign shape yields JS `undefined`, rendered here as the empty string. -/
def failureErrorText : CacheData → String
  | .failure e _ => e
  | _ => ""

/-- A zero-valued quote record, the target of the unchecked TS cast when
foreign data sits under a quote success key; never produced by the modelled
writers. -/
def defaultQuote : StockQuoteData :=
  { quote :=
      { symbol := "", name := "", price := 0, changesPercentage := 0,
        change := 0, dayLow := 0, dayHigh := 0, yearHigh := 0, yearLow := 0,
        marketCap := 0, priceAvg50 := 0, priceAvg200 := 0, volume := 0,
        avgVolume := 0, timestamp := 0 }
    symbol := "", fallbackMode := false }

/-- The unchecked `getCachedSuccess<StockQuoteData>` cast. -/
def coerceQuote : CacheData → StockQuoteData
  | .quoteData d => d
  | _ => defaultQuote

/-- The unchecked `getCachedSuccess<StockHistoryData>` cast. -/
def coerceHistory : CacheData → StockHistoryData
  | .historyData d => d
  | _ => { data := [], symbol := "" }

/-- The HTTP response a fetch flow's single network request resolves to. -/
structure HttpResponse where
  ok : Bool
  status : Nat
  statusText : String
  body : JsonVal

/-- The observable outcome of one fetch flow: the returned value or thrown
error, the store after all cache side effects, and whether the flow reached
its network request. -/
structure FetchResult (α : Type) where
  result : Except ApiError α
  store : Store
  networkCalled : Bool

/-- The part of `fetchStockQuote` after the cached-failure and cached-success
checks: configuration check, network request, HTTP error classification,
transform, and success caching. -/
def fetchStockQuoteNet (symbol : String) (apiKey : Option String)
    (resp : HttpResponse) (s : Store) (now : Int) :
    FetchResult StockQuoteData :=
  match apiKey with
  | none => ⟨.error (plainError "API key is not configured"), s, false⟩
  | some k =>
    if k = "" then ⟨.error (plainError "API key is not configured"), s, false⟩
    else if resp.ok then
      match transformQuoteResponse resp.body symbol now with
      | .error e => ⟨.error e, s, true⟩
      | .ok result =>
          ⟨.ok result, cacheSuccess .stockDetails symbol (.quoteData result) s now,
           true⟩
    else
      let classified := handleHttpError resp.status resp.statusText
        .stockDetails symbol none s now
      ⟨.error classified.1, classified.2, true⟩

/-- The cached-success check of `fetchStockQuote`, continuing into the
network flow on a miss. -/
def fetchStockQuoteCached (symbol : String) (apiKey : Option String)
    (resp : HttpResponse) (s : Store) (now : Int) :
    FetchResult StockQuoteData :=
  let succCheck := hasCachedSuccess .stockDetails symbol s now
  if succCheck.1 then
    match getCachedSuccess .stockDetails symbol succCheck.2 now with
    | (some cachedData, s2) => ⟨.ok (coerceQuote cachedData), s2, false⟩
    | (none, s2) => fetchStockQuoteNet symbol apiKey resp s2 now
  else fetchStockQuoteNet symbol apiKey resp succCheck.2 now

/-- `fetchStockQuote` from `src/hooks/useStockQuote.ts`: empty-symbol guard,
cached-failure short-circuit, cached-success short-circuit, then the network
flow under the `stockDetails` category. -/
def fetchStockQuote (symbol : String) (apiKey : Option String)
    (resp : HttpResponse) (s : Store) (now : Int) :
    FetchResult StockQuoteData :=
  if symbol = "" then
    ⟨.error (plainError "Stock symbol is required"), s, false⟩
  else
    let failCheck := hasCachedFailure .stockDetails symbol s now
    if failCheck.1 then
      match getCachedFailure .stockDetails symbol failCheck.2 now with
      | (some failureData, s2) =>
          ⟨.error (createCachedFailureError (failureErrorText failureData)),
           s2, false⟩
      | (none, s2) => fetchStockQuoteCached symbol apiKey resp s2 now
    else fetchStockQuoteCached symbol apiKey resp failCheck.2 now

/-- The network part of `fetchHistoricalData`, under the `stockHistory1Day`
category. -/
def fetchHistoricalDataNet (symbol : String) (apiKey : Option String)
    (resp : HttpResponse) (s : Store) (now : Int) :
    FetchResult StockHistoryData :=
  match apiKey with
  | none => ⟨.error (plainError "API key is not configured"), s, false⟩
  | some k =>
    if k = "" then ⟨.error (plainError "API key is not configured"), s, false⟩
    else if resp.ok then
      match transformHistoricalResponse resp.body symbol with
      | .error e => ⟨.error e, s, true⟩
      | .ok result =>
          ⟨.ok result,
           cacheSuccess .stockHistory1Day symbol (.historyData result) s now,
           true⟩
    else
      let classified := handleHttpError resp.status resp.statusText
        .stockHistory1Day symbol none s now
      ⟨.error classified.1, classified.2, true⟩

/-- The cached-success check of `fetchHistoricalData`, continuing into the
network flow on a miss. -/
def fetchHistoricalDataCached (symbol : String) (apiKey : Option String)
    (resp : HttpResponse) (s : Store) (now : Int) :
    FetchResult StockHistoryData :=
  let succCheck := hasCachedSuccess .stockHistory1Day symbol s now
  if succCheck.1 then
    match getCachedSuccess .stockHistory1Day symbol succCheck.2 now with
    | (some cachedData, s2) => ⟨.ok (coerceHistory cachedData), s2, false⟩
    | (none, s2) => fetchHistoricalDataNet symbol apiKey resp s2 now
  else fetchHistoricalDataNet symbol apiKey resp succCheck.2 now

/-- `fetchHistoricalData` from `src/hooks/useStockHistory.ts`. -/
def fetchHistoricalData (symbol : String) (apiKey : Option String)
    (resp : HttpResponse) (s : Store) (now : Int) :
    FetchResult StockHistoryData :=
  if symbol = "" then
    ⟨.error (plainError "Stock symbol is required"), s, false⟩
  else
    let failCheck := hasCachedFailure .stockHistory1Day symbol s now
    if failCheck.1 then
      match getCachedFailure .stockHistory1Day symbol failCheck.2 now with
      | (some failureData, s2) =>
          ⟨.error (createCachedFailureError (failureErrorText failureData)),
           s2, false⟩
      | (none, s2) => fetchHistoricalDataCached symbol apiKey resp s2 now
    else fetchHistoricalDataCached symbol apiKey resp failCheck.2 now

/-! ### Store lemmas -/

theorem getItem_removeItem_self (s : Store) (k : String) :
    getItem (removeItem s k) k = none := by
  induction s with
  | nil => rfl
  | cons hd tl ih =>
      obtain ⟨k', v⟩ := hd
      by_cases h : k' = k
      · simp [removeItem, h, ih]
      · simp [removeItem, getItem, h, ih]

theorem getItem_removeItem_ne (s : Store) (k k' : String) (h : k' ≠ k) :
    getItem (removeItem s k) k' = getItem s k' := by
  induction s with
  | nil => rfl
  | cons hd tl ih =>
      obtain ⟨k0, v⟩ := hd
      by_cases h0 : k0 = k
      · subst h0
        have hne : ¬ (k0 = k') := fun hc => h (hc ▸ rfl)
        simp only [removeItem, if_pos rfl, getItem, if_neg hne]
        exact ih
      · by_cases h1 : k0 = k'
        · simp only [removeItem, if_neg h0, getItem, if_pos h1]
        · simp only [removeItem, if_neg h0, getItem, if_neg h1]
          exact ih

theorem getItem_setItem_self (s : Store) (k : String) (v : StoredVal) :
    getItem (setItem s k v) k = some v := by
  simp [setItem, getItem]

theorem getItem_setItem_ne (s : Store) (k k' : String) (v : StoredVal)
    (h : k' ≠ k) : getItem (setItem s k v) k' = getItem s k' := by
  have hne : k ≠ k' := fun hc => h hc.symm
  simp [setItem, getItem, hne, getItem_removeItem_ne s k k' h]

theorem getItem_eq_none_of_not_mem (s : Store) (k : String)
    (h : k ∉ storeKeys s) : getItem s k = none := by
  induction s with
  | nil => rfl
  | cons hd tl ih =>
      obtain ⟨k0, v⟩ := hd
      simp only [storeKeys, List.map_cons, List.mem_cons] at h
      push_neg at h
      have h0 : k0 ≠ k := fun hc => h.1 hc.symm
      simp only [getItem, h0, if_false]
      exact ih h.2

theorem getItem_foldl_remove (p : String → Bool) (K : List String)
    (s : Store) (k : String) :
    getItem (K.foldl (fun acc key => if p key then removeItem acc key else acc) s) k
      = if p k ∧ k ∈ K then none else getItem s k := by
  induction K generalizing s with
  | nil => simp
  | cons a K ih =>
      simp only [List.foldl_cons]
      rw [ih]
      by_cases hpk : p k
      · by_cases hmem : k ∈ K
        · simp [hpk, hmem]
        · by_cases hak : k = a
          · subst hak
            simp [hpk, hmem, getItem_removeItem_self]
          · have : ¬ (k ∈ a :: K) := by
              simp [hak, hmem]
            simp only [hpk, hmem, true_and, and_false, if_false, this, if_neg]
            by_cases hpa : p a
            · simp [hpa, getItem_removeItem_ne s a k hak]
            · simp [hpa]
      · by_cases hpa : p a
        · by_cases hak : k = a
          · subst hak
            simp [hpk] at hpa
          · simp [hpk, hpa, getItem_removeItem_ne s a k hak]
        · simp [hpk, hpa]

/-! ### Key disjointness lemmas -/

theorem string_append_left_cancel (p a b : String) (h : p ++ a = p ++ b) :
    a = b := by
  have hd : p.data ++ a.data = p.data ++ b.data := by
    have := congrArg String.data h
    simpa [String.data_append] using this
  exact congrArg String.mk (List.append_cancel_left hd)

theorem buildKey_inj_id (t : CacheCategory) (a b : String)
    (h : buildKey t a = buildKey t b) : a = b := by
  exact string_append_left_cancel (keyPrefixVal ++ "-" ++ categoryName t ++ "-") a b h

theorem buildKey_details_ne_history1Day (a b : String) :
    buildKey .stockDetails a ≠ buildKey .stockHistory1Day b := by
  intro h
  have h1 : buildKey .stockDetails a = "market-lens-stockDetails-" ++ a := rfl
  have h2 : buildKey .stockHistory1Day b = "market-lens-stockHistory1Day-" ++ b := rfl
  rw [h1, h2] at h
  have h17 := congrArg (fun s => s.data[17]?) h
  simp only [String.data_append] at h17
  rw [List.getElem?_append_left (by decide),
    List.getElem?_append_left (by decide)] at h17
  exact absurd h17 (by decide)

theorem failed_id_ne_id (a : String) : "failed-" ++ a ≠ a := by
  intro h
  have hl := congrArg String.length h
  rw [String.length_append] at hl
  have h7 : ("failed-" : String).length = 7 := by decide
  omega

theorem buildKey_failed_ne_plain (t : CacheCategory) (a : String) :
    buildKey t ("failed-" ++ a) ≠ buildKey t a := by
  intro h
  exact failed_id_ne_id a (buildKey_inj_id t ("failed-" ++ a) a h)

/-! ### Claim theorems -/

/-- C1: for every category and identifier, after `setCache(category, id, data)`
at clock time `T`, `hasValidCache(category, id)` at any later time `Tq`
returns `true` when `Tq - T ≤ duration(category)` and `false` when
`Tq - T > duration(category)`; in the expired case the stored entry is
removed from storage by the call. -/
theorem setCache_hasValidCache_expiry (t : CacheCategory) (id : String)
    (d : CacheData) (s : Store) (T Tq : Int) (_hT : T ≤ Tq) :
    (Tq - T ≤ cacheDuration t →
      (hasValidCache t id (setCache t id d s T) Tq).1 = true) ∧
    (cacheDuration t < Tq - T →
      (hasValidCache t id (setCache t id d s T) Tq).1 = false ∧
      getItem (hasValidCache t id (setCache t id d s T) Tq).2 (buildKey t id)
        = none) := by
  have hget : getItem (setCache t id d s T) (buildKey t id)
      = some (.env d T) := getItem_setItem_self s (buildKey t id) (.env d T)
  constructor
  · intro hle
    have hnot : ¬ (Tq - T > cacheDuration t) := by omega
    simp [hasValidCache, hget, hnot]
  · intro hgt
    have hyes : Tq - T > cacheDuration t := hgt
    have heq : hasValidCache t id (setCache t id d s T) Tq
        = (false, removeItem (setCache t id d s T) (buildKey t id)) := by
      simp [hasValidCache, hget, hyes]
    rw [heq]
    exact ⟨rfl, getItem_removeItem_self _ _⟩

/-- Witness for C1 at a concrete input: a `stockDetails` entry written at
time 0 is valid exactly at its 4-hour bound and invalid one millisecond
later, with the entry gone. -/
theorem setCache_hasValidCache_expiry_witness :
    (hasValidCache .stockDetails "AAPL"
      (setCache .stockDetails "AAPL" (.failure "x" 0) [] 0) 14400000).1 = true ∧
    (hasValidCache .stockDetails "AAPL"
      (setCache .stockDetails "AAPL" (.failure "x" 0) [] 0) 14400001).1 = false ∧
    getItem
      (hasValidCache .stockDetails "AAPL"
        (setCache .stockDetails "AAPL" (.failure "x" 0) [] 0) 14400001).2
      (buildKey .stockDetails "AAPL") = none :=
  ⟨(setCache_hasValidCache_expiry .stockDetails "AAPL" (.failure "x" 0) []
      0 14400000 (by decide)).1 (by decide),
   ((setCache_hasValidCache_expiry .stockDetails "AAPL" (.failure "x" 0) []
      0 14400001 (by decide)).2 (by decide)).1,
   ((setCache_hasValidCache_expiry .stockDetails "AAPL" (.failure "x" 0) []
      0 14400001 (by decide)).2 (by decide)).2⟩

/-- C7: `clearAllCache` removes every stored key starting with the
application prefix and leaves every other key bound to exactly the value it
had before the call. -/
theorem clearAllCache_frame (s : Store) (k : String) :
    (strStartsWith k keyPrefixVal = true → getItem (clearAllCache s) k = none) ∧
    (strStartsWith k keyPrefixVal = false →
      getItem (clearAllCache s) k = getItem s k) := by
  have hfold := getItem_foldl_remove (fun key => strStartsWith key keyPrefixVal)
    (storeKeys s) s k
  constructor
  · intro hp
    by_cases hmem : k ∈ storeKeys s
    · rw [clearAllCache, hfold, if_pos ⟨hp, hmem⟩]
    · rw [clearAllCache, hfold, if_neg (by simp [hmem])]
      exact getItem_eq_none_of_not_mem s k hmem
  · intro hp
    rw [clearAllCache, hfold, if_neg (by simp [hp])]

/-- Witness for C7 at a concrete store: the app-prefixed entry is removed,
the unrelated `other-app-data` entry keeps its exact value. -/
theorem clearAllCache_frame_witness :
    getItem
      (clearAllCache
        [("market-lens-stockDetails-AAPL", .env (.failure "e" 0) 0),
         ("other-app-data", .raw "hello")])
      "market-lens-stockDetails-AAPL" = none ∧
    getItem
      (clearAllCache
        [("market-lens-stockDetails-AAPL", .env (.failure "e" 0) 0),
         ("other-app-data", .raw "hello")])
      "other-app-data" = some (.raw "hello") :=
  ⟨(clearAllCache_frame
      [("market-lens-stockDetails-AAPL", .env (.failure "e" 0) 0),
       ("other-app-data", .raw "hello")]
      "market-lens-stockDetails-AAPL").1 (by decide),
   ((clearAllCache_frame
      [("market-lens-stockDetails-AAPL", .env (.failure "e" 0) 0),
       ("other-app-data", .raw "hello")]
      "other-app-data").2 (by decide)).trans rfl⟩

/-- C2: `handleHttpError` throws a typed error following the status-code
policy exactly: 401/402/403/404 throw with `retryable = false` and persist a
Failure Record for the `(category, symbol)` pair; every status `>= 500`
throws with `retryable = true` and writes nothing; every other status throws
a `ClientError` with `retryable = false` and writes nothing. -/
theorem handleHttpError_policy (status : Nat) (statusText : String)
    (cat : CacheCategory) (symbol : String) (baseMsg : Option String)
    (s : Store) (now : Int) :
    (isPermanentError status = true →
      (handleHttpError status statusText cat symbol baseMsg s now).1.retryable?
          = some false ∧
      getItem (handleHttpError status statusText cat symbol baseMsg s now).2
          (buildKey cat ("failed-" ++ symbol))
        = some (.env
            (.failure
              (handleHttpError status statusText cat symbol baseMsg s now).1.message
              now) now)) ∧
    (500 ≤ status →
      (handleHttpError status statusText cat symbol baseMsg s now).1.retryable?
          = some true ∧
      (handleHttpError status statusText cat symbol baseMsg s now).2 = s) ∧
    (isPermanentError status = false → status < 500 →
      (handleHttpError status statusText cat symbol baseMsg s now).1.name
          = "ClientError" ∧
      (handleHttpError status statusText cat symbol baseMsg s now).1.retryable?
          = some false ∧
      (handleHttpError status statusText cat symbol baseMsg s now).2 = s) := by
  refine ⟨?_, ?_, ?_⟩
  · intro hp
    have hcases : status = 401 ∨ status = 402 ∨ status = 403 ∨ status = 404 := by
      simpa [isPermanentError] using hp
    rcases hcases with h | h | h | h <;> subst h <;>
      simp [handleHttpError, createApiError, cacheFailure, setCache,
        getItem_setItem_self]
  · intro h5
    have h402 : status ≠ 402 := by omega
    have h403 : status ≠ 403 := by omega
    have h401 : status ≠ 401 := by omega
    have h404 : status ≠ 404 := by omega
    simp [handleHttpError, createApiError, h402, h403, h401, h404, h5]
  · intro hp h5
    have hcases : ¬ (status = 401) ∧ ¬ (status = 402) ∧ ¬ (status = 403) ∧
        ¬ (status = 404) := by
      simpa [isPermanentError] using hp
    have h5' : ¬ (500 ≤ status) := by omega
    simp [handleHttpError, createApiError, hcases.1, hcases.2.1, hcases.2.2.1,
      hcases.2.2.2, h5']

/-- Witness for C2 at concrete statuses 404, 503 and 400. -/
theorem handleHttpError_policy_witness :
    ((handleHttpError 404 "Not Found" .stockDetails "AAPL" none [] 0).1.retryable?
        = some false ∧
      getItem (handleHttpError 404 "Not Found" .stockDetails "AAPL" none [] 0).2
          (buildKey .stockDetails ("failed-" ++ "AAPL"))
        = some (.env
            (.failure
              (handleHttpError 404 "Not Found" .stockDetails "AAPL" none [] 0).1.message
              0) 0)) ∧
    ((handleHttpError 503 "Unavailable" .stockDetails "AAPL" none [] 0).1.retryable?
        = some true ∧
      (handleHttpError 503 "Unavailable" .stockDetails "AAPL" none [] 0).2 = []) ∧
    ((handleHttpError 400 "Bad Request" .stockDetails "AAPL" none [] 0).1.name
        = "ClientError" ∧
      (handleHttpError 400 "Bad Request" .stockDetails "AAPL" none [] 0).1.retryable?
        = some false ∧
      (handleHttpError 400 "Bad Request" .stockDetails "AAPL" none [] 0).2 = []) :=
  ⟨(handleHttpError_policy 404 "Not Found" .stockDetails "AAPL" none [] 0).1
      (by decide),
   (handleHttpError_policy 503 "Unavailable" .stockDetails "AAPL" none [] 0).2.1
      (by decide),
   (handleHttpError_policy 400 "Bad Request" .stockDetails "AAPL" none [] 0).2.2
      (by decide) (by decide)⟩

/-- On a permanent status (401/402/403/404) and an omitted base message,
`handleHttpError` produces a non-retryable error and stores its exact
message as the pair's failure record. -/
theorem handleHttpError_perm_shape (status : Nat) (statusText : String)
    (cat : CacheCategory) (symbol : String) (s : Store) (now : Int)
    (hp : isPermanentError status = true) :
    ∃ m nm, handleHttpError status statusText cat symbol none s now
      = (createApiError m nm status false, cacheFailure cat symbol m s now) := by
  have hcases : status = 401 ∨ status = 402 ∨ status = 403 ∨ status = 404 := by
    simpa [isPermanentError] using hp
  rcases hcases with h | h | h | h <;> subst h <;> exact ⟨_, _, rfl⟩

/-- C3: after a permanent failure (status 401/402/403/404) is recorded for
`(stockDetails, symbol)`, every later `fetchStockQuote` for that pair within
the record's validity window short-circuits without a network call and
throws the previously recorded error message, as a `CachedFailure` rather
than a fresh error. -/
theorem fetchStockQuote_cached_failure_short_circuit (status : Nat)
    (statusText symbol : String) (apiKey : Option String)
    (resp : HttpResponse) (s : Store) (T0 Tq : Int)
    (hsym : symbol ≠ "") (hp : isPermanentError status = true)
    (hvalid : Tq - T0 ≤ cacheDuration .stockDetails) :
    (fetchStockQuote symbol apiKey resp
      (handleHttpError status statusText .stockDetails symbol none s T0).2
      Tq).networkCalled = false ∧
    (fetchStockQuote symbol apiKey resp
      (handleHttpError status statusText .stockDetails symbol none s T0).2
      Tq).result
      = .error (createCachedFailureError
          (handleHttpError status statusText .stockDetails symbol none s
            T0).1.message) := by
  obtain ⟨m, nm, hEq⟩ := handleHttpError_perm_shape status statusText
    .stockDetails symbol s T0 hp
  rw [hEq]
  have hkey : getItem (cacheFailure .stockDetails symbol m s T0)
      (buildKey .stockDetails ("failed-" ++ symbol))
      = some (.env (.failure m T0) T0) := by
    simp [cacheFailure, setCache, getItem_setItem_self]
  have hnotexp : ¬ (Tq - T0 > cacheDuration .stockDetails) := by omega
  constructor
  · simp [fetchStockQuote, hsym, hasCachedFailure, hasValidCache, hkey,
      hnotexp, getCachedFailure, getCache, failureErrorText]
  · simp [fetchStockQuote, hsym, hasCachedFailure, hasValidCache, hkey,
      hnotexp, getCachedFailure, getCache, failureErrorText, createApiError]

/-- Witness for C3: a 402 history-tier failure recorded for AAPL at time 0
short-circuits a quote fetch one hour later. -/
theorem fetchStockQuote_cached_failure_short_circuit_witness :
    (fetchStockQuote "AAPL" (some "key")
      ⟨true, 200, "OK", .jarr []⟩
      (handleHttpError 402 "Payment Required" .stockDetails "AAPL" none []
        0).2 3600000).networkCalled = false ∧
    (fetchStockQuote "AAPL" (some "key")
      ⟨true, 200, "OK", .jarr []⟩
      (handleHttpError 402 "Payment Required" .stockDetails "AAPL" none []
        0).2 3600000).result
      = .error (createCachedFailureError
          (handleHttpError 402 "Payment Required" .stockDetails "AAPL" none []
            0).1.message) :=
  fetchStockQuote_cached_failure_short_circuit 402 "Payment Required" "AAPL"
    (some "key") ⟨true, 200, "OK", .jarr []⟩ [] 0 3600000
    (by decide) (by decide) (by decide)

/-- An added element is a member of the JS set afterwards. -/
theorem setAdd_contains_self (l : List String) (a : String) :
    (setAdd l a).contains a = true := by
  unfold setAdd
  by_cases h : l.contains a
  · rw [if_pos h]
    exact h
  · rw [if_neg h]
    simp [List.contains_cons]

/-- The cached-failure short-circuit shared by both fetch flows: with a
valid failure record under `cat`, the flow for `cat` throws the recorded
message as a `CachedFailure` and never reaches the network. -/
theorem fetchStockQuote_failure_precedence (symbol : String)
    (apiKey : Option String) (resp : HttpResponse) (s : Store) (now : Int)
    (m : String) (tf : Int) (hsym : symbol ≠ "")
    (hfail : getItem s (buildKey .stockDetails ("failed-" ++ symbol))
      = some (.env (.failure m tf) tf))
    (hfv : now - tf ≤ cacheDuration .stockDetails) :
    fetchStockQuote symbol apiKey resp s now
      = ⟨.error (createCachedFailureError m), s, false⟩ := by
  have hnotexp : ¬ (now - tf > cacheDuration .stockDetails) := by omega
  simp [fetchStockQuote, hsym, hasCachedFailure, hasValidCache, hfail,
    hnotexp, getCachedFailure, getCache, failureErrorText]

/-- The historical counterpart of `fetchStockQuote_failure_precedence`. -/
theorem fetchHistoricalData_failure_precedence (symbol : String)
    (apiKey : Option String) (resp : HttpResponse) (s : Store) (now : Int)
    (m : String) (tf : Int) (hsym : symbol ≠ "")
    (hfail : getItem s (buildKey .stockHistory1Day ("failed-" ++ symbol))
      = some (.env (.failure m tf) tf))
    (hfv : now - tf ≤ cacheDuration .stockHistory1Day) :
    fetchHistoricalData symbol apiKey resp s now
      = ⟨.error (createCachedFailureError m), s, false⟩ := by
  have hnotexp : ¬ (now - tf > cacheDuration .stockHistory1Day) := by omega
  simp [fetchHistoricalData, hsym, hasCachedFailure, hasValidCache, hfail,
    hnotexp, getCachedFailure, getCache, failureErrorText]

/-- C8: success envelopes and failure records for one `(category, symbol)`
pair live under distinct keys, so `cacheSuccess` leaves any failure record
untouched and `cacheFailure` leaves any success data untouched; and when
both a valid failure record and a valid success envelope exist, both fetch
flows throw the cached failure without a network call, never returning the
cached success data. -/
theorem cache_failure_success_coexistence :
    (∀ (cat : CacheCategory) (symbol : String) (d : CacheData) (s : Store)
        (now : Int),
      getItem (cacheSuccess cat symbol d s now)
          (buildKey cat ("failed-" ++ symbol))
        = getItem s (buildKey cat ("failed-" ++ symbol))) ∧
    (∀ (cat : CacheCategory) (symbol err : String) (s : Store) (now : Int),
      getItem (cacheFailure cat symbol err s now) (buildKey cat symbol)
        = getItem s (buildKey cat symbol)) ∧
    (∀ (symbol : String) (apiKey : Option String) (resp : HttpResponse)
        (s : Store) (now : Int) (m : String) (tf : Int) (d : StockQuoteData)
        (ts : Int),
      symbol ≠ "" →
      getItem s (buildKey .stockDetails ("failed-" ++ symbol))
        = some (.env (.failure m tf) tf) →
      now - tf ≤ cacheDuration .stockDetails →
      getItem s (buildKey .stockDetails symbol)
        = some (.env (.quoteData d) ts) →
      now - ts ≤ cacheDuration .stockDetails →
      (fetchStockQuote symbol apiKey resp s now).result
          = .error (createCachedFailureError m) ∧
      (fetchStockQuote symbol apiKey resp s now).networkCalled = false) ∧
    (∀ (symbol : String) (apiKey : Option String) (resp : HttpResponse)
        (s : Store) (now : Int) (m : String) (tf : Int)
        (d : StockHistoryData) (ts : Int),
      symbol ≠ "" →
      getItem s (buildKey .stockHistory1Day ("failed-" ++ symbol))
        = some (.env (.failure m tf) tf) →
      now - tf ≤ cacheDuration .stockHistory1Day →
      getItem s (buildKey .stockHistory1Day symbol)
        = some (.env (.historyData d) ts) →
      now - ts ≤ cacheDuration .stockHistory1Day →
      (fetchHistoricalData symbol apiKey resp s now).result
          = .error (createCachedFailureError m) ∧
      (fetchHistoricalData symbol apiKey resp s now).networkCalled = false) := by
  refine ⟨?_, ?_, ?_, ?_⟩
  · intro cat symbol d s now
    exact getItem_setItem_ne s (buildKey cat symbol)
      (buildKey cat ("failed-" ++ symbol)) (.env d now)
      (buildKey_failed_ne_plain cat symbol)
  · intro cat symbol err s now
    exact getItem_setItem_ne s (buildKey cat ("failed-" ++ symbol))
      (buildKey cat symbol) (.env (.failure err now) now)
      (Ne.symm (buildKey_failed_ne_plain cat symbol))
  · intro symbol apiKey resp s now m tf d ts hsym hfail hfv _ _
    rw [fetchStockQuote_failure_precedence symbol apiKey resp s now m tf
      hsym hfail hfv]
    exact ⟨rfl, rfl⟩
  · intro symbol apiKey resp s now m tf d ts hsym hfail hfv _ _
    rw [fetchHistoricalData_failure_precedence symbol apiKey resp s now m tf
      hsym hfail hfv]
    exact ⟨rfl, rfl⟩

/-- Witness for C8 at a concrete store holding both a valid failure record
and a valid success envelope for `(stockDetails, AAPL)`. -/
theorem cache_failure_success_coexistence_witness :
    (fetchStockQuote "AAPL" (some "key") ⟨true, 200, "OK", .jarr []⟩
      [("market-lens-stockDetails-failed-AAPL", .env (.failure "boom" 0) 0),
       ("market-lens-stockDetails-AAPL", .env (.quoteData defaultQuote) 0)]
      0).result = .error (createCachedFailureError "boom") ∧
    (fetchStockQuote "AAPL" (some "key") ⟨true, 200, "OK", .jarr []⟩
      [("market-lens-stockDetails-failed-AAPL", .env (.failure "boom" 0) 0),
       ("market-lens-stockDetails-AAPL", .env (.quoteData defaultQuote) 0)]
      0).networkCalled = false :=
  cache_failure_success_coexistence.2.2.1 "AAPL" (some "key")
    ⟨true, 200, "OK", .jarr []⟩
    [("market-lens-stockDetails-failed-AAPL", .env (.failure "boom" 0) 0),
     ("market-lens-stockDetails-AAPL", .env (.quoteData defaultQuote) 0)]
    0 "boom" 0 defaultQuote 0 (by decide) (by decide) (by decide) (by decide)
    (by decide)

/-- C9: every error built by `createCachedFailureError` has name
`"CachedFailure"`, status `0` and `retryable = false`; the chart's fallback
trigger (`historyError?.status === 402`) is therefore never satisfied by a
replayed memoized failure — a history fetch served from the failure cache
yields an error that does not fire the fallback — while a fresh HTTP 402
classified by `handleHttpError` does fire it. -/
theorem cachedFailure_never_fires_fallback :
    (∀ m, (createCachedFailureError m).name = "CachedFailure" ∧
      (createCachedFailureError m).status? = some 0 ∧
      (createCachedFailureError m).retryable? = some false) ∧
    (∀ m, shouldUseFallback (some (createCachedFailureError m)) = false) ∧
    (∀ (symbol : String) (apiKey : Option String) (resp : HttpResponse)
        (s : Store) (now : Int) (m : String) (tf : Int),
      symbol ≠ "" →
      getItem s (buildKey .stockHistory1Day ("failed-" ++ symbol))
        = some (.env (.failure m tf) tf) →
      now - tf ≤ cacheDuration .stockHistory1Day →
      ∃ e, (fetchHistoricalData symbol apiKey resp s now).result = .error e ∧
        shouldUseFallback (some e) = false) ∧
    (∀ (statusText : String) (cat : CacheCategory) (symbol : String)
        (baseMsg : Option String) (s : Store) (now : Int),
      shouldUseFallback
        (some (handleHttpError 402 statusText cat symbol baseMsg s now).1)
        = true) := by
  refine ⟨?_, ?_, ?_, ?_⟩
  · intro m
    exact ⟨rfl, rfl, rfl⟩
  · intro m
    rfl
  · intro symbol apiKey resp s now m tf hsym hfail hfv
    refine ⟨createCachedFailureError m, ?_, rfl⟩
    rw [fetchHistoricalData_failure_precedence symbol apiKey resp s now m tf
      hsym hfail hfv]
  · intro statusText cat symbol baseMsg s now
    simp [handleHttpError, createApiError, shouldUseFallback]

/-- Witness for C9's replay conjunct at a concrete store. -/
theorem cachedFailure_never_fires_fallback_witness :
    ∃ e, (fetchHistoricalData "AAPL" (some "key") ⟨true, 200, "OK", .jarr []⟩
      [("market-lens-stockHistory1Day-failed-AAPL",
        .env (.failure "quota" 0) 0)] 0).result = .error e ∧
      shouldUseFallback (some e) = false :=
  cachedFailure_never_fires_fallback.2.2.1 "AAPL" (some "key")
    ⟨true, 200, "OK", .jarr []⟩
    [("market-lens-stockHistory1Day-failed-AAPL", .env (.failure "quota" 0) 0)]
    0 "quota" 0 (by decide) (by decide) (by decide)

/-- C10: additions to the in-memory permanently-failed set always store the
lowercased symbol; the should-fetch guard lowercases the requested symbol
before the membership test, so once any casing of a symbol is marked, every
casing is blocked; persisted cache keys, by contrast, embed the identifier
case-sensitively, so distinct casings occupy distinct storage entries. -/
theorem failedSet_lowercase_blocking :
    (∀ (symbol : String) (set1 : List String) (maxRetries : Nat)
        (e : ApiError) (rc : Nat),
      (createStockRetryConfig symbol set1 maxRetries e rc).failedSet = set1 ∨
      (createStockRetryConfig symbol set1 maxRetries e rc).failedSet
        = setAdd set1 (strToLower symbol)) ∧
    (∀ (symbol : String) (set1 : List String) (maxRetries : Nat)
        (e : ApiError) (rc : Nat) (symbol2 : String),
      shouldRetryError e = false →
      strToLower symbol2 = strToLower symbol →
      shouldFetch symbol2
        (createStockRetryConfig symbol set1 maxRetries e rc).failedSet
        = false) ∧
    (∀ (cat : CacheCategory) (a b : String),
      a ≠ b → buildKey cat a ≠ buildKey cat b) := by
  refine ⟨?_, ?_, ?_⟩
  · intro symbol set1 maxRetries e rc
    by_cases h1 : shouldRetryError e = false
    · right
      simp [createStockRetryConfig, h1]
    · by_cases h2 : (statusTruthy e.status? &&
          isPermanentError (e.status?.getD 0)) = true
      · right
        simp [createStockRetryConfig, h1, h2]
      · by_cases h3 : maxRetries ≤ rc
        · left
          simp [createStockRetryConfig, h1, h2, h3]
        · by_cases h4 : (statusTruthy e.status? &&
              decide (500 ≤ e.status?.getD 0)) = true
          · left
            simp [createStockRetryConfig, h1, h2, h3, h4]
          · left
            simp [createStockRetryConfig, h1, h2, h3, h4]
  · intro symbol set1 maxRetries e rc symbol2 hret hlow
    have hset : (createStockRetryConfig symbol set1 maxRetries e rc).failedSet
        = setAdd set1 (strToLower symbol) := by
      simp [createStockRetryConfig, hret]
    rw [hset]
    by_cases hempty : symbol2 = ""
    · simp [shouldFetch, hempty]
    · simp only [shouldFetch, if_neg hempty, hlow,
        setAdd_contains_self set1 (strToLower symbol), Bool.not_true]
  · intro cat a b hne h
    exact hne (buildKey_inj_id cat a b h)

/-- Witness for C10's blocking conjunct: after a non-retryable 404 for
symbol `AAPL`, the differently-cased request `aApL` is blocked. -/
theorem failedSet_lowercase_blocking_witness :
    shouldFetch "aApL"
      (createStockRetryConfig "AAPL" []
        2 (createApiError "not found" "NotFoundError" 404 false) 0).failedSet
      = false ∧
    buildKey .stockDetails "AAPL" ≠ buildKey .stockDetails "aapl" :=
  ⟨failedSet_lowercase_blocking.2.1 "AAPL" [] 2
    (createApiError "not found" "NotFoundError" 404 false) 0 "aApL"
    (by decide) (by decide),
   failedSet_lowercase_blocking.2.2 .stockDetails "AAPL" "aapl" (by decide)⟩

/-- C6 counterexample: for an unclassified 4xx (status 400 on
`(stockDetails, AAPL)`), no failure record is persisted, but the SWR retry
handler DOES add the lowercased symbol to the in-memory permanently-failed
set, and the hooks' guard then blocks a later request for the symbol —
contradicting the claim that the symbol is not added to the set and that a
later request still reaches the network. -/
theorem clientError_memoized_counterexample :
    (handleHttpError 400 "Bad Request" .stockDetails "AAPL" none [] 0).2 = [] ∧
    (createStockRetryConfig "AAPL" [] 2
        (handleHttpError 400 "Bad Request" .stockDetails "AAPL" none [] 0).1
        0).failedSet.contains "aapl" = true ∧
    shouldFetch "AAPL"
      (createStockRetryConfig "AAPL" [] 2
        (handleHttpError 400 "Bad Request" .stockDetails "AAPL" none [] 0).1
        0).failedSet = false := by
  refine ⟨rfl, by decide, by decide⟩

/-- C6 amended: an unclassified 4xx throws a non-retryable `ClientError` and
persists no Failure Record, but the retry handler adds the lowercased symbol
to the in-memory permanently-failed set (it does so on every non-retryable
error), so for the rest of the process the hooks' guard blocks requests for
that symbol. -/
theorem clientError_not_persisted_but_memoized (status : Nat)
    (statusText : String) (cat : CacheCategory) (symbol : String)
    (baseMsg : Option String) (s : Store) (now : Int) (set1 : List String)
    (maxRetries rc : Nat)
    (hp : isPermanentError status = false) (h5 : status < 500) :
    (handleHttpError status statusText cat symbol baseMsg s now).2 = s ∧
    (handleHttpError status statusText cat symbol baseMsg s now).1.name
      = "ClientError" ∧
    (handleHttpError status statusText cat symbol baseMsg s now).1.retryable?
      = some false ∧
    (createStockRetryConfig symbol set1 maxRetries
        (handleHttpError status statusText cat symbol baseMsg s now).1
        rc).failedSet
      = setAdd set1 (strToLower symbol) ∧
    shouldFetch symbol
      (createStockRetryConfig symbol set1 maxRetries
        (handleHttpError status statusText cat symbol baseMsg s now).1
        rc).failedSet = false := by
  have hcases : ¬ (status = 401) ∧ ¬ (status = 402) ∧ ¬ (status = 403) ∧
      ¬ (status = 404) := by
    simpa [isPermanentError] using hp
  have h5' : ¬ (500 ≤ status) := by omega
  have herr : (handleHttpError status statusText cat symbol baseMsg s
      now).1.retryable? = some false := by
    simp [handleHttpError, createApiError, hcases.1, hcases.2.1,
      hcases.2.2.1, hcases.2.2.2, h5']
  have hret : shouldRetryError
      (handleHttpError status statusText cat symbol baseMsg s now).1
      = false := by
    simp [shouldRetryError, herr]
  have hset : (createStockRetryConfig symbol set1 maxRetries
      (handleHttpError status statusText cat symbol baseMsg s now).1
      rc).failedSet = setAdd set1 (strToLower symbol) := by
    simp [createStockRetryConfig, hret]
  refine ⟨?_, ?_, herr, hset, ?_⟩
  · simp [handleHttpError, hcases.1, hcases.2.1, hcases.2.2.1,
      hcases.2.2.2, h5']
  · simp [handleHttpError, createApiError, hcases.1, hcases.2.1,
      hcases.2.2.1, hcases.2.2.2, h5']
  · rw [hset]
    by_cases hempty : symbol = ""
    · simp [shouldFetch, hempty]
    · simp only [shouldFetch, if_neg hempty,
        setAdd_contains_self set1 (strToLower symbol), Bool.not_true]

/-- Witness for C6's amended theorem at status 429. -/
theorem clientError_not_persisted_but_memoized_witness :
    (handleHttpError 429 "Too Many Requests" .stockDetails "AAPL" none []
      0).2 = [] ∧
    (handleHttpError 429 "Too Many Requests" .stockDetails "AAPL" none []
      0).1.name = "ClientError" ∧
    (handleHttpError 429 "Too Many Requests" .stockDetails "AAPL" none []
      0).1.retryable? = some false ∧
    (createStockRetryConfig "AAPL" [] 2
        (handleHttpError 429 "Too Many Requests" .stockDetails "AAPL" none []
          0).1 0).failedSet = setAdd [] (strToLower "AAPL") ∧
    shouldFetch "AAPL"
      (createStockRetryConfig "AAPL" [] 2
        (handleHttpError 429 "Too Many Requests" .stockDetails "AAPL" none []
          0).1 0).failedSet = false :=
  clientError_not_persisted_but_memoized 429 "Too Many Requests"
    .stockDetails "AAPL" none [] 0 [] 2 0 (by decide) (by decide)

/-- Every successful quote transform carries `fallbackMode = true` and the
requested symbol. -/
theorem transformQuoteResponse_ok_shape (data : JsonVal) (sym : String)
    (now : Int) (q : StockQuoteData)
    (h : transformQuoteResponse data sym now = .ok q) :
    q.fallbackMode = true ∧ q.symbol = sym := by
  unfold transformQuoteResponse at h
  split at h
  · exact absurd h (by simp)
  · split at h
    · rw [Except.ok.injEq] at h
      cases h
      exact ⟨rfl, rfl⟩
    · exact absurd h (by simp)

/-- A concrete raw quote object carrying all the required fields (with
`name` and `timestamp` absent). -/
def sampleQuoteObj : JsonVal :=
  .jobj [("symbol", .jstr "AAPL"), ("price", .jnum 150),
    ("changesPercentage", .jnum 2), ("change", .jnum 3),
    ("dayLow", .jnum 140), ("dayHigh", .jnum 155), ("yearHigh", .jnum 200),
    ("yearLow", .jnum 100), ("marketCap", .jnum 1000),
    ("priceAvg50", .jnum 145), ("priceAvg200", .jnum 130),
    ("volume", .jnum 50000), ("avgVolume", .jnum 40000)]

/-- C4: a historical-data request failing with a fresh HTTP 402 throws an
error satisfying the chart's fallback trigger, and the substitute quote
fetch for the same symbol — run on the store left by the failed history
fetch — succeeds (given a valid quote response) with data carrying
`fallbackMode = true` for that symbol. -/
theorem history402_fallback_substitution (symbol k statusText : String)
    (body1 : JsonVal) (resp2 : HttpResponse) (s : Store) (t1 t2 : Int)
    (q : StockQuoteData)
    (hsym : symbol ≠ "") (hk : k ≠ "")
    (hhf : getItem s (buildKey .stockHistory1Day ("failed-" ++ symbol)) = none)
    (hhs : getItem s (buildKey .stockHistory1Day symbol) = none)
    (hqf : getItem s (buildKey .stockDetails ("failed-" ++ symbol)) = none)
    (hqs : getItem s (buildKey .stockDetails symbol) = none)
    (hok2 : resp2.ok = true)
    (htr : transformQuoteResponse resp2.body symbol t2 = .ok q) :
    ∃ e s2,
      fetchHistoricalData symbol (some k) ⟨false, 402, statusText, body1⟩ s t1
        = ⟨.error e, s2, true⟩ ∧
      e.status? = some 402 ∧
      shouldUseFallback (some e) = true ∧
      (fetchStockQuote symbol (some k) resp2 s2 t2).result = .ok q ∧
      (fetchStockQuote symbol (some k) resp2 s2 t2).networkCalled = true ∧
      q.fallbackMode = true ∧
      q.symbol = symbol := by
  have hshape := transformQuoteResponse_ok_shape resp2.body symbol t2 q htr
  have hC : handleHttpError 402 statusText .stockHistory1Day symbol none s t1
      = (createApiError
          ("API request failed: " ++ toString (402 : Nat) ++ " " ++ statusText
            ++ " - API usage limit reached")
          "PaymentRequiredError" 402 false,
         cacheFailure .stockHistory1Day symbol
          ("API request failed: " ++ toString (402 : Nat) ++ " " ++ statusText
            ++ " - API usage limit reached") s t1) := rfl
  refine ⟨(handleHttpError 402 statusText .stockHistory1Day symbol none s
      t1).1,
    (handleHttpError 402 statusText .stockHistory1Day symbol none s t1).2,
    ?_, ?_, ?_, ?_, ?_, hshape.1, hshape.2⟩
  · simp [fetchHistoricalData, hsym, hasCachedFailure, hasValidCache, hhf,
      fetchHistoricalDataCached, hasCachedSuccess, hhs,
      fetchHistoricalDataNet, hk]
  · rw [hC]
    rfl
  · rw [hC]
    rfl
  · have hqf2 : getItem
        (handleHttpError 402 statusText .stockHistory1Day symbol none s t1).2
        (buildKey .stockDetails ("failed-" ++ symbol)) = none := by
      rw [hC]
      simp only [cacheFailure, setCache]
      rw [getItem_setItem_ne s _ _ _
        (buildKey_details_ne_history1Day ("failed-" ++ symbol)
          ("failed-" ++ symbol))]
      exact hqf
    have hqs2 : getItem
        (handleHttpError 402 statusText .stockHistory1Day symbol none s t1).2
        (buildKey .stockDetails symbol) = none := by
      rw [hC]
      simp only [cacheFailure, setCache]
      rw [getItem_setItem_ne s _ _ _
        (buildKey_details_ne_history1Day symbol ("failed-" ++ symbol))]
      exact hqs
    simp [fetchStockQuote, hsym, hasCachedFailure, hasValidCache, hqf2,
      fetchStockQuoteCached, hasCachedSuccess, hqs2, fetchStockQuoteNet,
      hk, hok2, htr]
  · have hqf2 : getItem
        (handleHttpError 402 statusText .stockHistory1Day symbol none s t1).2
        (buildKey .stockDetails ("failed-" ++ symbol)) = none := by
      rw [hC]
      simp only [cacheFailure, setCache]
      rw [getItem_setItem_ne s _ _ _
        (buildKey_details_ne_history1Day ("failed-" ++ symbol)
          ("failed-" ++ symbol))]
      exact hqf
    have hqs2 : getItem
        (handleHttpError 402 statusText .stockHistory1Day symbol none s t1).2
        (buildKey .stockDetails symbol) = none := by
      rw [hC]
      simp only [cacheFailure, setCache]
      rw [getItem_setItem_ne s _ _ _
        (buildKey_details_ne_history1Day symbol ("failed-" ++ symbol))]
      exact hqs
    simp [fetchStockQuote, hsym, hasCachedFailure, hasValidCache, hqf2,
      fetchStockQuoteCached, hasCachedSuccess, hqs2, fetchStockQuoteNet,
      hk, hok2, htr]

/-- Witness for C4: an empty store, a 402 history response for AAPL, and a
valid quote payload yield fallback-mode quote data for AAPL. -/
theorem history402_fallback_substitution_witness :
    ∃ e s2,
      fetchHistoricalData "AAPL" (some "key")
        ⟨false, 402, "Payment Required", .jnull⟩ [] 0
        = ⟨.error e, s2, true⟩ ∧
      e.status? = some 402 ∧
      shouldUseFallback (some e) = true ∧
      (fetchStockQuote "AAPL" (some "key")
        ⟨true, 200, "OK", .jarr [sampleQuoteObj]⟩ s2 0).result
        = .ok ⟨⟨"AAPL", "AAPL", 150, 2, 3, 140, 155, 200, 100, 1000, 145,
            130, 50000, 40000, 0⟩, "AAPL", true⟩ ∧
      (fetchStockQuote "AAPL" (some "key")
        ⟨true, 200, "OK", .jarr [sampleQuoteObj]⟩ s2 0).networkCalled
        = true ∧
      (⟨⟨"AAPL", "AAPL", 150, 2, 3, 140, 155, 200, 100, 1000, 145, 130,
          50000, 40000, 0⟩, "AAPL", true⟩ : StockQuoteData).fallbackMode
        = true ∧
      (⟨⟨"AAPL", "AAPL", 150, 2, 3, 140, 155, 200, 100, 1000, 145, 130,
          50000, 40000, 0⟩, "AAPL", true⟩ : StockQuoteData).symbol
        = "AAPL" :=
  history402_fallback_substitution "AAPL" "key" "Payment Required" .jnull
    ⟨true, 200, "OK", .jarr [sampleQuoteObj]⟩ [] 0 0
    ⟨⟨"AAPL", "AAPL", 150, 2, 3, 140, 155, 200, 100, 1000, 145, 130, 50000,
      40000, 0⟩, "AAPL", true⟩
    (by decide) (by decide) rfl rfl rfl rfl rfl (by rfl)

/-- Following the claim's words (not the source): an object carrying all
the required numeric quote fields. -/
def specRequiredQuoteFieldsObj (item : JsonVal) : Bool :=
  match item with
  | .jobj _ =>
      isJStr (jGet item "symbol") &&
      isJNum (jGet item "price") &&
      isJNum (jGet item "changesPercentage") &&
      isJNum (jGet item "change") &&
      isJNum (jGet item "dayLow") &&
      isJNum (jGet item "dayHigh") &&
      isJNum (jGet item "yearHigh") &&
      isJNum (jGet item "yearLow") &&
      isJNum (jGet item "marketCap") &&
      isJNum (jGet item "priceAvg50") &&
      isJNum (jGet item "priceAvg200") &&
      isJNum (jGet item "volume") &&
      isJNum (jGet item "avgVolume")
  | _ => false

/-- Following the claim's words (not the source): a non-empty array of
objects EACH of which carries all the required numeric quote fields. -/
def specQuotePayloadAllValid (data : JsonVal) : Bool :=
  match data with
  | .jarr items => !items.isEmpty && items.all specRequiredQuoteFieldsObj
  | _ => false

/-- C5 counterexample: a payload whose second element is the number 5 — so
not every element is an object with the required numeric fields — does NOT
make `transformQuoteResponse` throw: the source validates only the first
element. -/
theorem transformQuoteResponse_each_element_counterexample :
    specQuotePayloadAllValid (.jarr [sampleQuoteObj, .jnum 5]) = false ∧
    ∃ q, transformQuoteResponse (.jarr [sampleQuoteObj, .jnum 5]) "AAPL" 99
      = .ok q :=
  ⟨by decide, ⟨_, rfl⟩⟩

/-- If `validateApiResponse` passes, the payload satisfies the source's
first-element validation. -/
theorem validateApiResponse_none_imp (data : JsonVal)
    (h : validateApiResponse data = none) :
    isQuoteResponseArray data = true := by
  by_cases hq : isQuoteResponseArray data = true
  · exact hq
  · exfalso
    simp only [validateApiResponse] at h
    split at h
    · cases h
    · split at h
      · cases h
      · rw [if_neg (by simpa using hq)] at h
        cases h

/-- C5 amended: `transformQuoteResponse` throws a validation error unless
the payload (after the embedded-error-envelope check) is a non-empty array
whose FIRST element is an object with all the required numeric quote fields
— later elements are never inspected; on a valid payload it maps the first
element into the quote record, defaults `name` to the requested symbol when
absent and `timestamp` to the current clock when absent. -/
theorem transformQuoteResponse_first_element_validation (data : JsonVal)
    (symbol : String) (now : Int) :
    (isQuoteResponseArray data = false →
      ∃ e, transformQuoteResponse data symbol now = .error e) ∧
    (∀ firstObj rest, data = .jarr (firstObj :: rest) →
      isQuoteResponseArray data = true →
      ∃ q, transformQuoteResponse data symbol now = .ok q ∧
        q.symbol = symbol ∧ q.fallbackMode = true ∧
        (jGet firstObj "name" = none → q.quote.name = symbol) ∧
        (jGet firstObj "timestamp" = none → q.quote.timestamp = now) ∧
        (∀ p, jGet firstObj "price" = some (.jnum p) → q.quote.price = p) ∧
        (∀ s0, jGet firstObj "symbol" = some (.jstr s0) →
          q.quote.symbol = s0)) := by
  constructor
  · intro hq
    cases hv : validateApiResponse data with
    | some m =>
        exact ⟨plainError m, by simp [transformQuoteResponse, hv]⟩
    | none =>
        exact absurd (validateApiResponse_none_imp data hv) (by simp [hq])
  · intro firstObj rest hdata hq
    subst hdata
    have hval : validateApiResponse (.jarr (firstObj :: rest)) = none := by
      simp [validateApiResponse, isApiErrorResponse, hq]
    refine ⟨⟨⟨jStrD firstObj "symbol", quoteNameField firstObj symbol,
        jNumD firstObj "price", jNumD firstObj "changesPercentage",
        jNumD firstObj "change", jNumD firstObj "dayLow",
        jNumD firstObj "dayHigh", jNumD firstObj "yearHigh",
        jNumD firstObj "yearLow", jNumD firstObj "marketCap",
        jNumD firstObj "priceAvg50", jNumD firstObj "priceAvg200",
        jNumD firstObj "volume", jNumD firstObj "avgVolume",
        quoteTimestampField firstObj now⟩, symbol, true⟩,
      by simp [transformQuoteResponse, hval], rfl, rfl, ?_, ?_, ?_, ?_⟩
    · intro hname
      simp [quoteNameField, jStrField, hname]
    · intro hts
      simp [quoteTimestampField, jNumField, hts]
    · intro p hp
      simp [jNumD, jNumField, hp]
    · intro s0 hs0
      simp [jStrD, jStrField, hs0]

/-- Witness for C5's amended theorem at a concrete valid payload whose
first element omits `name` and `timestamp`. -/
theorem transformQuoteResponse_first_element_validation_witness :
    ∃ q, transformQuoteResponse (.jarr [sampleQuoteObj]) "AAPL" 7 = .ok q ∧
      q.symbol = "AAPL" ∧ q.fallbackMode = true ∧
      (jGet sampleQuoteObj "name" = none → q.quote.name = "AAPL") ∧
      (jGet sampleQuoteObj "timestamp" = none → q.quote.timestamp = 7) ∧
      (∀ p, jGet sampleQuoteObj "price" = some (.jnum p) →
        q.quote.price = p) ∧
      (∀ s0, jGet sampleQuoteObj "symbol" = some (.jstr s0) →
        q.quote.symbol = s0) :=
  (transformQuoteResponse_first_element_validation (.jarr [sampleQuoteObj])
    "AAPL" 7).2 sampleQuoteObj [] rfl (by decide)

end MarketLens
